import Mathlib

/-!
Verification of the teleconf `Config` workflow (`src/__init__.py`).

The embedding models the load → resolve → persist pass of `Config.__init__`
together with the four field getters `_get_api_id`, `_get_api_hash`,
`_get_bot_token` and `_get_phone_number`.  JSON values are an inductive
`JValue`; the config file on disk is a `FileContent` (absent, present but
unparseable, or parsed JSON); the interactive session is a list of `Event`s
(a line the user submits, or an interrupt).  Python exceptions that the
claims exercise (`KeyboardInterrupt`, `TypeError`, `AttributeError`,
`KeyError`, end-of-input) are an explicit `PyExn`.

String helpers (`pyStrip`, `pyIsdigit`, `pyPhoneMatch`) model the ASCII
behaviour of Python's `str.strip`, `str.isdigit` and the phone regex
`^\+?[1-9]\d{6,14}$`; Python's Unicode categories additionally accept
non-ASCII digit characters, none of which the spec or the claims exercise.
-/

namespace Teleconf

/-- A parsed JSON value, as produced by `json.load`. -/
inductive JValue where
  | jnull
  | jbool (b : Bool)
  | jnum (n : Int)
  | jstr (s : String)
  | jarr (elems : List JValue)
  | jobj (entries : List (String × JValue))
  deriving Repr

/-- The state of the config file on disk. -/
inductive FileContent where
  /-- The file does not exist. -/
  | absent
  /-- The file exists but its content is not valid JSON
      (`json.load` raises `JSONDecodeError`). -/
  | corrupt (raw : String)
  /-- The file exists and parses to the given JSON value. -/
  | json (v : JValue)
  deriving Repr

/-- The Python exceptions the modelled code can raise. -/
inductive PyExn where
  | keyboardInterrupt
  | typeError
  | keyError
  | attributeError
  | eofError
  deriving Repr, DecidableEq

/-- One interaction step of the prompt session. -/
inductive Event where
  /-- The user submits a line of text. -/
  | line (s : String)
  /-- The user sends an interrupt (CTRL+C) — `KeyboardInterrupt`. -/
  | interrupt
  deriving Repr, DecidableEq

/-- Python `str.strip()` (ASCII whitespace). -/
def pyStrip (s : String) : String :=
  String.mk (((s.toList.dropWhile Char.isWhitespace).reverse.dropWhile
    Char.isWhitespace).reverse)

/-- Python `str.isdigit()` restricted to ASCII: nonempty and all characters
are decimal digits.  (Python also accepts non-ASCII Unicode digits, which
nothing in the spec or the claims exercises.) -/
def pyIsdigit (s : String) : Bool :=
  !s.isEmpty && s.toList.all Char.isDigit

/-- `int(s)` for a string of decimal digits. -/
def pyIntDigits (s : String) : Int :=
  Int.ofNat (s.toList.foldl (fun a c => 10 * a + (c.toNat - 48)) 0)

/-- `bool(re.match(r"^\+?[1-9]\d{6,14}$", s))` without the optional
leading plus: a first digit in 1–9 followed by 6 to 14 further digits. -/
def phoneCore (cs : List Char) : Bool :=
  match cs with
  | [] => false
  | c :: rest =>
      ('1' ≤ c && c ≤ '9') && rest.all Char.isDigit &&
        (6 ≤ rest.length && rest.length ≤ 14)

/-- `bool(re.match(r"^\+?[1-9]\d{6,14}$", s))` (ASCII digits). -/
def pyPhoneMatch (s : String) : Bool :=
  match s.toList with
  | '+' :: rest => phoneCore rest
  | cs => phoneCore cs

/-- Does `needle` occur as a contiguous substring of `hay`? -/
def strContains (needle hay : String) : Bool :=
  (List.range (hay.toList.length + 1)).any
    (fun i => needle.toList.isPrefixOf (hay.toList.drop i))

/-- Python `key in v` for a JSON value `v`: key membership for a dict,
substring test for a string, element membership for a list, and a
`TypeError` for every other value. -/
def pyContains (key : String) (v : JValue) : Except PyExn Bool :=
  match v with
  | .jobj entries => .ok (entries.any (fun e => e.1 == key))
  | .jstr s => .ok (strContains key s)
  | .jarr elems =>
      .ok (elems.any (fun e =>
        match e with
        | .jstr s => s == key
        | _ => false))
  | _ => .error .typeError

/-- Python `v[key]` for a JSON value `v`: dict lookup (last binding wins,
matching `json.load` on duplicate keys), `KeyError` when the key is
missing, and a `TypeError` for every non-dict value. -/
def pyIndex (key : String) (v : JValue) : Except PyExn JValue :=
  match v with
  | .jobj entries =>
      match entries.reverse.find? (fun e => e.1 == key) with
      | some e => .ok e.2
      | none => .error .keyError
  | _ => .error .typeError

/-- A prompt-toolkit validator built by `Validator.from_callable`. -/
structure Validator where
  check : String → Bool
  errorMessage : String

/-- One `session.prompt(...)` call with `validate_while_typing=False`:
the user edits and submits lines; an invalid line shows the validator's
error message and re-prompts in place; the first valid line is returned
with the remaining events.  An interrupt raises `KeyboardInterrupt`;
running out of input raises `EOFError`. -/
def promptLoop (valid : String → Bool) : List Event → Except PyExn (String × List Event)
  | [] => .error .eofError
  | .interrupt :: _ => .error .keyboardInterrupt
  | .line s :: rest =>
      if valid s then .ok (s, rest) else promptLoop valid rest

/-- Validator of `_get_api_id`: `lambda t: t.isdigit()` on the raw
submitted text. -/
def apiIdValidator : Validator :=
  ⟨fun t => pyIsdigit t, "Enter a numeric API ID"⟩

/-- Validator of `_get_api_hash`: `lambda t: bool(t.strip())`. -/
def apiHashValidator : Validator :=
  ⟨fun t => !(pyStrip t).isEmpty, "API Hash cannot be empty"⟩

/-- Validator of `_get_bot_token`: `lambda t: bool(t.strip())`. -/
def botTokenValidator : Validator :=
  ⟨fun t => !(pyStrip t).isEmpty, "Bot Token cannot be empty"⟩

/-- Validator of `_get_phone_number`. -/
def phoneValidator : Validator :=
  ⟨fun t => pyPhoneMatch (pyStrip t),
   "Phone number should contain only digits, optionally starting with a +, and be 7–15 digits long."⟩

/-- `return int(api_id_text.strip())` in `_get_api_id`. -/
def apiIdCoerce (t : String) : JValue := .jnum (pyIntDigits (pyStrip t))

/-- `return text.strip()` in the three string getters. -/
def strCoerce (t : String) : JValue := .jstr (pyStrip t)

/-- Result of one `_get_*` call: the value, the remaining input events,
and whether a prompt was issued (rather than a stored value reused). -/
structure GetResult where
  value : JValue
  rest : List Event
  prompted : Bool
  deriving Repr

/-- The shared shape of `_get_api_id` / `_get_api_hash` / `_get_bot_token` /
`_get_phone_number`:

    if (key in self.as_dict) and not force_update:
        return self.as_dict[key]
    text = self.session.prompt(..., validator=..., validate_while_typing=False)
    return coerce(text)

The membership test runs first (Python's `and` evaluates its left operand
first), so a non-dict `as_dict` raises `TypeError` even when
`force_update` is true. -/
def getField (key : String) (vd : Validator) (coerce : String → JValue)
    (asDict : JValue) (forceUpdate : Bool) (events : List Event) :
    Except PyExn GetResult :=
  match pyContains key asDict with
  | .error e => .error e
  | .ok mem =>
      if mem && !forceUpdate then
        match pyIndex key asDict with
        | .error e => .error e
        | .ok v => .ok ⟨v, events, false⟩
      else
        match promptLoop vd.check events with
        | .error e => .error e
        | .ok (t, rest) => .ok ⟨coerce t, rest, true⟩

/-- `Config._get_api_id`. -/
def getApiId (asDict : JValue) (fu : Bool) (events : List Event) :
    Except PyExn GetResult :=
  getField "api_id" apiIdValidator apiIdCoerce asDict fu events

/-- `Config._get_api_hash`. -/
def getApiHash (asDict : JValue) (fu : Bool) (events : List Event) :
    Except PyExn GetResult :=
  getField "api_hash" apiHashValidator strCoerce asDict fu events

/-- `Config._get_bot_token`. -/
def getBotToken (asDict : JValue) (fu : Bool) (events : List Event) :
    Except PyExn GetResult :=
  getField "bot_token" botTokenValidator strCoerce asDict fu events

/-- `Config._get_phone_number`. -/
def getPhoneNumber (asDict : JValue) (fu : Bool) (events : List Event) :
    Except PyExn GetResult :=
  getField "phone_number" phoneValidator strCoerce asDict fu events

/-- The four `request_*` constructor flags with their Python defaults. -/
structure Flags where
  request_bot_token : Bool := true
  request_api_id : Bool := false
  request_api_hash : Bool := false
  request_phone_number : Bool := false
  deriving Repr, DecidableEq

/-- The instance attributes `self.api_id` / `self.api_hash` /
`self.bot_token` / `self.phone_number`; `none` means the attribute was
never assigned (so reading it raises `AttributeError`). -/
structure Attrs where
  api_id : Option JValue := none
  api_hash : Option JValue := none
  bot_token : Option JValue := none
  phone_number : Option JValue := none
  deriving Repr

/-- The load step of `Config.__init__`: a missing file keeps the initial
empty dict, a `JSONDecodeError` is caught and resets `as_dict` to the
empty dict, and any successfully parsed JSON value — object or not — is
stored as `as_dict` unchecked. -/
def loadRecord : FileContent → JValue
  | .absent => .jobj []
  | .corrupt _ => .jobj []
  | .json v => v

/-- One conditional resolution step `if request_x: self.x = self._get_x(...)`:
threads the remaining events and the list of fields that were prompted. -/
def step (requested : Bool) (get : List Event → Except PyExn GetResult)
    (name : String) (st : List Event × List String) :
    Except PyExn (Option JValue × List Event × List String) :=
  if requested then
    match get st.1 with
    | .error e => .error e
    | .ok r => .ok (some r.value, r.rest, if r.prompted then st.2 ++ [name] else st.2)
  else .ok (none, st.1, st.2)

/-- The prompting block of `Config.__init__`: the four fields in the fixed
order api_id, api_hash, bot_token, phone_number, each resolved only when
its flag is set. -/
def resolveFields (flags : Flags) (fu : Bool) (asDict : JValue)
    (events : List Event) :
    Except PyExn (Attrs × List Event × List String) :=
  match step flags.request_api_id (getApiId asDict fu) "api_id" (events, []) with
  | .error e => .error e
  | .ok (aid, e1, p1) =>
    match step flags.request_api_hash (getApiHash asDict fu) "api_hash" (e1, p1) with
    | .error e => .error e
    | .ok (ahash, e2, p2) =>
      match step flags.request_bot_token (getBotToken asDict fu) "bot_token" (e2, p2) with
      | .error e => .error e
      | .ok (tok, e3, p3) =>
        match step flags.request_phone_number (getPhoneNumber asDict fu) "phone_number" (e3, p3) with
        | .error e => .error e
        | .ok (ph, e4, p4) => .ok (⟨aid, ahash, tok, ph⟩, e4, p4)

/-- The save step of `Config.__init__`: the dict literal
`{"api_id": self.api_id, "api_hash": self.api_hash, "bot_token": self.bot_token}`
reads the three attributes unconditionally, in order, raising
`AttributeError` at the first one that was never assigned. -/
def buildOutput (a : Attrs) : Except PyExn JValue :=
  match a.api_id with
  | none => .error .attributeError
  | some aid =>
    match a.api_hash with
    | none => .error .attributeError
    | some ahash =>
      match a.bot_token with
      | none => .error .attributeError
      | some tok =>
        .ok (.jobj [("api_id", aid), ("api_hash", ahash), ("bot_token", tok)])

/-- How a `Config(...)` construction ends. -/
inductive Outcome where
  /-- `KeyboardInterrupt` caught: the notice is printed and `sys.exit(0)`
      terminates the process with exit status 0. -/
  | cancelled
  /-- An uncaught exception propagates out of `__init__`. -/
  | error (e : PyExn)
  /-- The pass completed: the final attributes, the record written to the
      file (also the final `as_dict`), and the fields that were prompted. -/
  | done (attrs : Attrs) (written : JValue) (prompts : List String)
  deriving Repr

/-- The process exit status an outcome produces directly
(`sys.exit(0)` on cancellation; otherwise none is set by `__init__`). -/
def exitCode : Outcome → Option Nat
  | .cancelled => some 0
  | _ => none

/-- The whole of `Config.__init__` on a given file state and user-input
script: load, resolve the requested fields (catching only
`KeyboardInterrupt`), rebuild `as_dict` from the three attributes and
overwrite the file.  Returns the outcome and the resulting file state;
on cancellation or an uncaught exception the file is left untouched. -/
def runConfig (flags : Flags) (fu : Bool) (file : FileContent)
    (events : List Event) : Outcome × FileContent :=
  match resolveFields flags fu (loadRecord file) events with
  | .error .keyboardInterrupt => (.cancelled, file)
  | .error e => (.error e, file)
  | .ok (attrs, _, prompts) =>
      match buildOutput attrs with
      | .error e => (.error e, file)
      | .ok record => (.done attrs record prompts, .json record)

/-- The top-level keys of a JSON object (empty for non-objects). -/
def keysOf : JValue → List String
  | .jobj entries => entries.map (fun e => e.1)
  | _ => []

end Teleconf


namespace Teleconf

theorem digit_not_whitespace {c : Char} (h : c.isDigit = true) : c.isWhitespace = false := by
  cases hb : c.isWhitespace with
  | false => rfl
  | true =>
    exfalso
    simp only [Char.isWhitespace, Bool.or_eq_true, decide_eq_true_eq] at hb
    rcases hb with ((rfl | rfl) | rfl) | rfl <;> exact absurd h (by decide)

theorem dropWhile_ws_of_all_digits {l : List Char} (h : l.all Char.isDigit = true) :
    l.dropWhile Char.isWhitespace = l := by
  cases l with
  | nil => rfl
  | cons c cs =>
      rw [List.all_cons, Bool.and_eq_true] at h
      simp [List.dropWhile_cons, digit_not_whitespace h.1]

theorem pyStrip_eq_self_of_digits {s : String} (h : pyIsdigit s = true) :
    pyStrip s = s := by
  unfold pyIsdigit at h
  rw [Bool.and_eq_true] at h
  unfold pyStrip
  rw [dropWhile_ws_of_all_digits h.2,
      dropWhile_ws_of_all_digits (by simpa using h.2),
      List.reverse_reverse]
  rfl

theorem getField_reuse_stored {key : String} {vd : Validator} {coerce : String → JValue}
    {entries : List (String × JValue)} {events : List Event} {v : JValue}
    (hmem : pyContains key (.jobj entries) = .ok true)
    (hidx : pyIndex key (.jobj entries) = .ok v) :
    getField key vd coerce (.jobj entries) false events = .ok ⟨v, events, false⟩ := by
  unfold getField
  rw [hmem]
  simp [hidx]

theorem step_false_inv {g : List Event → Except PyExn GetResult} {n : String}
    {st : List Event × List String} {aid : Option JValue} {e : List Event} {p : List String}
    (h : step false g n st = .ok (aid, e, p)) :
    aid = none ∧ e = st.1 ∧ p = st.2 := by
  simp only [step] at h
  rw [if_neg (by simp)] at h
  injection h with h
  exact ⟨(congrArg Prod.fst h).symm, (congrArg (fun x => x.2.1) h).symm,
    (congrArg (fun x => x.2.2) h).symm⟩

theorem resolveFields_ok_inv {flags : Flags} {fu : Bool} {asDict : JValue}
    {events evs : List Event} {attrs : Attrs} {prompts : List String}
    (h : resolveFields flags fu asDict events = .ok (attrs, evs, prompts)) :
    ∃ aid ahash tok ph e1 e2 e3 e4 p1 p2 p3 p4,
      attrs = ⟨aid, ahash, tok, ph⟩ ∧
      step flags.request_api_id (getApiId asDict fu) "api_id" (events, []) = .ok (aid, e1, p1) ∧
      step flags.request_api_hash (getApiHash asDict fu) "api_hash" (e1, p1) = .ok (ahash, e2, p2) ∧
      step flags.request_bot_token (getBotToken asDict fu) "bot_token" (e2, p2) = .ok (tok, e3, p3) ∧
      step flags.request_phone_number (getPhoneNumber asDict fu) "phone_number" (e3, p3) = .ok (ph, e4, p4) ∧
      evs = e4 ∧ prompts = p4 := by
  unfold resolveFields at h
  split at h
  · exact absurd h (by simp)
  next aid e1 p1 h1 =>
    split at h
    · exact absurd h (by simp)
    next ahash e2 p2 h2 =>
      split at h
      · exact absurd h (by simp)
      next tok e3 p3 h3 =>
        split at h
        · exact absurd h (by simp)
        next ph e4 p4 h4 =>
          injection h with h
          refine ⟨aid, ahash, tok, ph, e1, e2, e3, e4, p1, p2, p3, p4,
            (congrArg Prod.fst h).symm, h1, h2, h3, h4,
            (congrArg (fun x => x.2.1) h).symm, (congrArg (fun x => x.2.2) h).symm⟩

theorem buildOutput_ok_inv {a : Attrs} {rec : JValue} (h : buildOutput a = .ok rec) :
    ∃ aid ahash tok, a.api_id = some aid ∧ a.api_hash = some ahash ∧
      a.bot_token = some tok ∧
      rec = .jobj [("api_id", aid), ("api_hash", ahash), ("bot_token", tok)] := by
  obtain ⟨ai, ah, bt, ph⟩ := a
  cases ai with
  | none => exact absurd h (by simp [buildOutput])
  | some aid =>
    cases ah with
    | none => exact absurd h (by simp [buildOutput])
    | some ahash =>
      cases bt with
      | none => exact absurd h (by simp [buildOutput])
      | some tok =>
        refine ⟨aid, ahash, tok, rfl, rfl, rfl, ?_⟩
        have he : buildOutput ⟨some aid, some ahash, some tok, ph⟩ =
            .ok (.jobj [("api_id", aid), ("api_hash", ahash), ("bot_token", tok)]) := rfl
        rw [he] at h
        injection h with h
        exact h.symm

theorem runConfig_done_main {flags : Flags} {fu : Bool} {file : FileContent}
    {events : List Event} {attrs : Attrs} {rec : JValue} {prompts : List String}
    {f' : FileContent}
    (h : runConfig flags fu file events = (.done attrs rec prompts, f')) :
    (∃ evs, resolveFields flags fu (loadRecord file) events = .ok (attrs, evs, prompts)) ∧
    buildOutput attrs = .ok rec ∧ f' = .json rec := by
  unfold runConfig at h
  split at h
  · exact absurd h (by simp)
  · exact absurd h (by simp)
  next a evs ps hres =>
    split at h
    · exact absurd h (by simp)
    next record hb =>
      injection h with h1 h2
      injection h1 with ha hr hp
      subst ha; subst hr; subst hp
      exact ⟨⟨evs, hres⟩, hb, h2.symm⟩

theorem runConfig_reload {flags : Flags} {aid ahash tok : JValue}
    (h1 : flags.request_api_id = true) (h2 : flags.request_api_hash = true)
    (h3 : flags.request_bot_token = true) (h4 : flags.request_phone_number = false)
    (events : List Event) :
    runConfig flags false
      (.json (.jobj [("api_id", aid), ("api_hash", ahash), ("bot_token", tok)]))
      events =
    (.done ⟨some aid, some ahash, some tok, none⟩
      (.jobj [("api_id", aid), ("api_hash", ahash), ("bot_token", tok)]) [],
     .json (.jobj [("api_id", aid), ("api_hash", ahash), ("bot_token", tok)])) := by
  obtain ⟨bt, ai, ah, ph⟩ := flags
  simp only at h1 h2 h3 h4
  subst h1; subst h2; subst h3; subst h4
  rfl

/-- C1: with the default flags (only `bot_token` requested) and no prior
config file, entering a valid token does not complete the pass: the save
step reads the never-assigned `self.api_id` attribute and the run ends in
an uncaught `AttributeError` without writing the config file. -/
theorem c1_default_run_raises_attribute_error :
    runConfig {} false .absent [.line "token123"] =
      (.error .attributeError, .absent) := rfl

/-- C2 (counterexample): a run with all four fields requested resolves a
phone number (the `phone_number` attribute is set) and reaches the write
step, yet the written record does not contain a `phone_number` key — the
file does not hold exactly the fields resolved during the run. -/
theorem c2_phone_number_dropped_counterexample :
    (runConfig ⟨true, true, true, true⟩ false .absent
        [.line "111", .line "hash", .line "tok", .line "79261234567"]).1 =
      .done ⟨some (.jnum 111), some (.jstr "hash"), some (.jstr "tok"),
          some (.jstr "79261234567")⟩
        (.jobj [("api_id", .jnum 111), ("api_hash", .jstr "hash"),
          ("bot_token", .jstr "tok")])
        ["api_id", "api_hash", "bot_token", "phone_number"] ∧
    pyContains "phone_number"
        (.jobj [("api_id", .jnum 111), ("api_hash", .jstr "hash"),
          ("bot_token", .jstr "tok")]) = .ok false := ⟨rfl, rfl⟩

/-- C2 (amended): every run that reaches the write step has resolved
`api_id`, `api_hash` and `bot_token`, and the file is fully overwritten
with exactly those three resolved values — never merged with prior
contents; a resolved `phone_number` is not among them. -/
theorem c2_write_is_full_overwrite {flags : Flags} {fu : Bool}
    {file : FileContent} {events : List Event} {attrs : Attrs} {rec : JValue}
    {prompts : List String} {f' : FileContent}
    (h : runConfig flags fu file events = (.done attrs rec prompts, f')) :
    (∃ aid ahash tok, attrs.api_id = some aid ∧ attrs.api_hash = some ahash ∧
      attrs.bot_token = some tok ∧
      rec = .jobj [("api_id", aid), ("api_hash", ahash), ("bot_token", tok)]) ∧
    f' = .json rec := by
  obtain ⟨⟨evs, hres⟩, hb, hf⟩ := runConfig_done_main h
  exact ⟨buildOutput_ok_inv hb, hf⟩

theorem c2_write_is_full_overwrite_witness :
    (∃ aid ahash tok,
      (Attrs.mk (some (.jnum 7)) (some (.jstr "h1")) (some (.jstr "t1")) none).api_id
          = some aid ∧
      (Attrs.mk (some (.jnum 7)) (some (.jstr "h1")) (some (.jstr "t1")) none).api_hash
          = some ahash ∧
      (Attrs.mk (some (.jnum 7)) (some (.jstr "h1")) (some (.jstr "t1")) none).bot_token
          = some tok ∧
      JValue.jobj [("api_id", .jnum 7), ("api_hash", .jstr "h1"), ("bot_token", .jstr "t1")]
        = .jobj [("api_id", aid), ("api_hash", ahash), ("bot_token", tok)]) ∧
    FileContent.json
        (.jobj [("api_id", .jnum 7), ("api_hash", .jstr "h1"), ("bot_token", .jstr "t1")])
      = .json (.jobj [("api_id", .jnum 7), ("api_hash", .jstr "h1"), ("bot_token", .jstr "t1")]) :=
  c2_write_is_full_overwrite
    (show runConfig ⟨true, true, true, false⟩ false .absent
        [.line "7", .line "h1", .line "t1"] =
      (.done ⟨some (.jnum 7), some (.jstr "h1"), some (.jstr "t1"), none⟩
        (.jobj [("api_id", .jnum 7), ("api_hash", .jstr "h1"), ("bot_token", .jstr "t1")])
        ["api_id", "api_hash", "bot_token"],
       .json (.jobj [("api_id", .jnum 7), ("api_hash", .jstr "h1"), ("bot_token", .jstr "t1")]))
      from rfl)

/-- C3: whenever the config file is written, the record is a JSON object
whose top-level keys are exactly `api_id`, `api_hash`, `bot_token`, and
`phone_number` occurs neither in the file nor in the final `as_dict`
(the written record), even when a phone number was requested and resolved. -/
theorem c3_persisted_record_keys {flags : Flags} {fu : Bool}
    {file : FileContent} {events : List Event} {attrs : Attrs} {rec : JValue}
    {prompts : List String} {f' : FileContent}
    (h : runConfig flags fu file events = (.done attrs rec prompts, f')) :
    keysOf rec = ["api_id", "api_hash", "bot_token"] ∧
    pyContains "phone_number" rec = .ok false := by
  obtain ⟨⟨evs, hres⟩, hb, hf⟩ := runConfig_done_main h
  obtain ⟨aid, ahash, tok, -, -, -, hrec⟩ := buildOutput_ok_inv hb
  subst hrec
  exact ⟨rfl, rfl⟩

theorem c3_persisted_record_keys_witness :
    keysOf (.jobj [("api_id", .jnum 55), ("api_hash", .jstr "hh"),
        ("bot_token", .jstr "tt")]) = ["api_id", "api_hash", "bot_token"] ∧
    pyContains "phone_number"
        (.jobj [("api_id", .jnum 55), ("api_hash", .jstr "hh"),
          ("bot_token", .jstr "tt")]) = .ok false :=
  c3_persisted_record_keys
    (show runConfig ⟨true, true, true, true⟩ false .absent
        [.line "55", .line "hh", .line "tt", .line "15551234567"] =
      (.done ⟨some (.jnum 55), some (.jstr "hh"), some (.jstr "tt"),
          some (.jstr "15551234567")⟩
        (.jobj [("api_id", .jnum 55), ("api_hash", .jstr "hh"), ("bot_token", .jstr "tt")])
        ["api_id", "api_hash", "bot_token", "phone_number"],
       .json (.jobj [("api_id", .jnum 55), ("api_hash", .jstr "hh"), ("bot_token", .jstr "tt")]))
      from rfl)

/-- C4 (counterexample): the input `" 123"` has trimmed text `"123"`,
which consists entirely of decimal digits, yet the api_id validator
rejects it — the validator runs on the raw, untrimmed input text. -/
theorem c4_untrimmed_validator_counterexample :
    apiIdValidator.check " 123" = false ∧
    pyStrip " 123" = "123" ∧ pyIsdigit "123" = true := ⟨rfl, rfl, rfl⟩

/-- C4 (amended): the api_id validator receives the raw submitted text and
accepts exactly the nonempty all-digit strings; its error message is
"Enter a numeric API ID"; a prompt re-prompts past rejected inputs and
accepts a valid input at once; on acceptance trimming is a no-op, so the
resolved api_id is the submitted digit string coerced to an integer. -/
theorem c4_api_id_raw_text_validation :
    (∀ t : String, apiIdValidator.check t = pyIsdigit t) ∧
    apiIdValidator.errorMessage = "Enter a numeric API ID" ∧
    (∀ t : String, apiIdValidator.check t = true →
      pyStrip t = t ∧ apiIdCoerce t = .jnum (pyIntDigits t)) ∧
    (∀ (s : String) (rest : List Event), apiIdValidator.check s = false →
      promptLoop apiIdValidator.check (.line s :: rest) =
        promptLoop apiIdValidator.check rest) ∧
    (∀ (s : String) (rest : List Event), apiIdValidator.check s = true →
      promptLoop apiIdValidator.check (.line s :: rest) = .ok (s, rest)) := by
  refine ⟨fun t => rfl, rfl, fun t ht => ?_, fun s rest hs => ?_, fun s rest hs => ?_⟩
  · have h1 := pyStrip_eq_self_of_digits ht
    exact ⟨h1, by unfold apiIdCoerce; rw [h1]⟩
  · simp only [promptLoop]
    rw [if_neg (by simp [hs])]
  · simp only [promptLoop]
    rw [if_pos hs]

theorem c4_api_id_raw_text_validation_witness :
    pyStrip "98765" = "98765" ∧ apiIdCoerce "98765" = .jnum (pyIntDigits "98765") :=
  c4_api_id_raw_text_validation.2.2.1 "98765" rfl

/-- C5: for any field getter, when the key is present in the loaded record
and `force_update` is false, the stored value — arbitrary, possibly
malformed — is returned verbatim with no prompt and no re-validation
(the conclusion does not depend on the validator or the coercion). -/
theorem c5_stored_value_reused_verbatim {key : String} {vd : Validator}
    {coerce : String → JValue} {entries : List (String × JValue)}
    {events : List Event} {v : JValue}
    (hmem : pyContains key (.jobj entries) = .ok true)
    (hidx : pyIndex key (.jobj entries) = .ok v) :
    getField key vd coerce (.jobj entries) false events = .ok ⟨v, events, false⟩ :=
  getField_reuse_stored hmem hidx

theorem c5_stored_value_reused_verbatim_witness :
    getField "api_id" apiIdValidator apiIdCoerce (.jobj [("api_id", .jstr "oops")])
      false [] = .ok ⟨.jstr "oops", [], false⟩ :=
  c5_stored_value_reused_verbatim rfl rfl

/-- C6: for any field getter, when `force_update` is true every successful
call went through the prompt — the reuse path is never taken, regardless
of whether the key is present in the loaded record. -/
theorem c6_force_update_always_prompts {key : String} {vd : Validator}
    {coerce : String → JValue} {asDict : JValue} {events : List Event}
    {r : GetResult}
    (h : getField key vd coerce asDict true events = .ok r) :
    r.prompted = true := by
  unfold getField at h
  split at h
  · exact absurd h (by simp)
  next mem hc =>
    rw [if_neg (by simp)] at h
    split at h
    · exact absurd h (by simp)
    next t rest hp =>
      injection h with h
      rw [← h]

theorem c6_force_update_always_prompts_witness :
    (⟨.jnum 42, [], true⟩ : GetResult).prompted = true :=
  c6_force_update_always_prompts
    (show getField "api_id" apiIdValidator apiIdCoerce (.jobj [("api_id", .jnum 5)])
        true [.line "42"] = .ok ⟨.jnum 42, [], true⟩ from rfl)

/-- C7: when an interrupt arrives during prompting (the resolution pass
raises `KeyboardInterrupt`), the construction ends in the cancellation
outcome with process exit status 0 and the config file is left with its
prior content; moreover an interrupt event reaching any prompt raises
exactly `KeyboardInterrupt`. -/
theorem c7_interrupt_cancels_without_write {flags : Flags} {fu : Bool}
    {file : FileContent} {events : List Event}
    (h : resolveFields flags fu (loadRecord file) events = .error .keyboardInterrupt) :
    runConfig flags fu file events = (.cancelled, file) ∧
    exitCode (runConfig flags fu file events).1 = some 0 ∧
    (∀ (valid : String → Bool) (rest : List Event),
      promptLoop valid (.interrupt :: rest) = .error .keyboardInterrupt) := by
  have hrun : runConfig flags fu file events = (.cancelled, file) := by
    unfold runConfig
    rw [h]
  exact ⟨hrun, by rw [hrun]; rfl, fun valid rest => rfl⟩

theorem c7_interrupt_cancels_without_write_witness :
    runConfig {} false .absent [.interrupt] = (.cancelled, .absent) :=
  (c7_interrupt_cancels_without_write
    (show resolveFields {} false (loadRecord .absent) [.interrupt] =
      .error .keyboardInterrupt from rfl)).1

/-- C8: a missing config file and an unparseable config file both load as
the empty record, no error surfaces from the load step, and resolution
proceeds identically in the two cases (the run outcome is the same for
every choice of flags, force_update and user input). -/
theorem c8_load_failure_silent_recovery (flags : Flags) (fu : Bool)
    (events : List Event) (raw : String) :
    loadRecord .absent = .jobj [] ∧ loadRecord (.corrupt raw) = .jobj [] ∧
    (runConfig flags fu (.corrupt raw) events).1 =
      (runConfig flags fu .absent events).1 := by
  refine ⟨rfl, rfl, ?_⟩
  unfold runConfig
  cases hres : resolveFields flags fu (loadRecord (.corrupt raw)) events with
  | error e =>
      have hres' : resolveFields flags fu (loadRecord .absent) events = .error e := hres
      rw [hres']
      cases e <;> rfl
  | ok t =>
      obtain ⟨a, evs, ps⟩ := t
      have hres' : resolveFields flags fu (loadRecord .absent) events = .ok (a, evs, ps) := hres
      rw [hres']
      dsimp only
      cases hb : buildOutput a <;> rfl

/-- C9: round-trip — whenever a resolution pass completes and writes the
file, all three of api_id/api_hash/bot_token were requested; reloading the
written file with `force_update = false` returns each of those stored
values verbatim, consuming no input and issuing no prompt; and when
phone_number is not requested, a whole second run on the written file with
the same flags reproduces the same attributes and record, issues no
prompt, and leaves the file unchanged. -/
theorem c9_round_trip {flags : Flags} {fu : Bool} {file : FileContent}
    {events1 : List Event} {attrs : Attrs} {rec : JValue} {prompts : List String}
    {f1 : FileContent}
    (h : runConfig flags fu file events1 = (.done attrs rec prompts, f1)) :
    flags.request_api_id = true ∧ flags.request_api_hash = true ∧
    flags.request_bot_token = true ∧
    (∀ events2 : List Event,
      ∃ aid ahash tok,
        attrs.api_id = some aid ∧ attrs.api_hash = some ahash ∧
        attrs.bot_token = some tok ∧
        getApiId (loadRecord f1) false events2 = .ok ⟨aid, events2, false⟩ ∧
        getApiHash (loadRecord f1) false events2 = .ok ⟨ahash, events2, false⟩ ∧
        getBotToken (loadRecord f1) false events2 = .ok ⟨tok, events2, false⟩) ∧
    (flags.request_phone_number = false →
      ∀ events2 : List Event,
        runConfig flags false f1 events2 = (.done attrs rec [], f1)) := by
  obtain ⟨⟨evs, hres⟩, hb, hf⟩ := runConfig_done_main h
  obtain ⟨aid, ahash, tok, hai, hah, hbt, hrec⟩ := buildOutput_ok_inv hb
  obtain ⟨aid', ahash', tok', ph', e1, e2, e3, e4, p1, p2, p3, p4,
    hA, h1, h2, h3, h4, hE, hP⟩ := resolveFields_ok_inv hres
  subst hA
  have hai2 : aid' = some aid := hai
  have hah2 : ahash' = some ahash := hah
  have hbt2 : tok' = some tok := hbt
  subst hai2; subst hah2; subst hbt2
  subst hf; subst hrec
  have hfl1 : flags.request_api_id = true := by
    cases hc : flags.request_api_id with
    | true => rfl
    | false =>
        rw [hc] at h1
        obtain ⟨hz, -, -⟩ := step_false_inv h1
        exact absurd hz (by simp)
  have hfl2 : flags.request_api_hash = true := by
    cases hc : flags.request_api_hash with
    | true => rfl
    | false =>
        rw [hc] at h2
        obtain ⟨hz, -, -⟩ := step_false_inv h2
        exact absurd hz (by simp)
  have hfl3 : flags.request_bot_token = true := by
    cases hc : flags.request_bot_token with
    | true => rfl
    | false =>
        rw [hc] at h3
        obtain ⟨hz, -, -⟩ := step_false_inv h3
        exact absurd hz (by simp)
  refine ⟨hfl1, hfl2, hfl3, ?_, ?_⟩
  · intro ev2
    exact ⟨aid, ahash, tok, rfl, rfl, rfl,
      getField_reuse_stored rfl rfl, getField_reuse_stored rfl rfl,
      getField_reuse_stored rfl rfl⟩
  · intro hph ev2
    have hphn : ph' = none := by
      rw [hph] at h4
      obtain ⟨hz, -, -⟩ := step_false_inv h4
      exact hz
    subst hphn
    exact runConfig_reload hfl1 hfl2 hfl3 hph ev2

theorem c9_round_trip_witness :
    getApiId (loadRecord (.json (.jobj [("api_id", .jnum 9), ("api_hash", .jstr "hh"),
        ("bot_token", .jstr "tt")]))) false [] =
      .ok ⟨.jnum 9, [], false⟩ := by
  have h := c9_round_trip (show runConfig ⟨true, true, true, false⟩ false .absent
      [.line "9", .line "hh", .line "tt"] =
      (.done ⟨some (.jnum 9), some (.jstr "hh"), some (.jstr "tt"), none⟩
        (.jobj [("api_id", .jnum 9), ("api_hash", .jstr "hh"), ("bot_token", .jstr "tt")])
        ["api_id", "api_hash", "bot_token"],
       .json (.jobj [("api_id", .jnum 9), ("api_hash", .jstr "hh"), ("bot_token", .jstr "tt")]))
      from rfl)
  obtain ⟨-, -, -, h4, -⟩ := h
  obtain ⟨aid, ahash, tok, hai, -, -, hga, -, -⟩ := h4 []
  have h9 : some (JValue.jnum 9) = some aid := hai
  injection h9 with h9
  rw [← h9] at hga
  exact hga

/-- C10: valid JSON whose top-level value is not an object (here a bare
number) is stored as the loaded record unrecovered, and with the default
flags the first key-membership test (`"bot_token" in self.as_dict`)
raises an uncaught `TypeError` instead of treating the record as empty —
the silent-recovery policy covers only JSON parse failures. -/
theorem c10_nonobject_record_type_error (n : Int) (fu : Bool) (events : List Event) :
    loadRecord (.json (.jnum n)) = .jnum n ∧
    pyContains "bot_token" (.jnum n) = .error .typeError ∧
    runConfig {} fu (.json (.jnum n)) events =
      (.error .typeError, .json (.jnum n)) := ⟨rfl, rfl, rfl⟩

end Teleconf
